import Mathlib

/-!
Verification development for the plato repository.

The file shallowly embeds the parts of the code that the claims touch:

* `src/plotting/data_conversion.py`: grid layout of image tiles
  (`vector_length_to_tile_dims`, `_data_shape_and_boundary_width_to_grid_slices`,
  `put_data_in_grid`), intensity rescaling (`scale_data_to_8_bit`) and the
  rolling sample buffer (`RecordBuffer`).  Numeric arrays are embedded as
  (nested) lists of rationals; python integer arithmetic on indices is
  embedded as natural-number arithmetic, with the real-valued
  `np.ceil(np.sqrt(.))` and `np.ceil(./.)` steps embedded by their exact
  mathematical values on natural-number input.

* `src/plato/interfaces/decorators.py`: the `AutoCompilingFunction` wrapper
  and the `SymbolicReturn` result type.  The symbolic-graph engine is
  abstracted: a symbolic function is embedded as its sample-value
  ("test value") propagation semantics, a function from concrete argument
  values and the store of stateful (shared) variables to the produced
  outputs and declared updates.  Compiling a graph then yields exactly that
  semantics as the compiled artifact.  Exceptions raised by the python code
  are embedded with `Except`.

The file is organised as definitions first, then theorems.
-/

namespace Plato

/-! ## Definitions: data_conversion.py -/

/-- Search for the least `c ≥ start` with `n ≤ c * c`, with explicit fuel so
that the recursion is structural and kernel-reducible. -/
def ceil_sqrt_from (n : ℕ) : ℕ → ℕ → ℕ
  | 0, c => c
  | fuel + 1, c => if n ≤ c * c then c else ceil_sqrt_from n fuel (c + 1)

/-- Embedding of `int(np.ceil(np.sqrt(n)))` on a natural number `n`: the least
natural `c` with `n ≤ c * c` (the exact mathematical value of the ceiling of
the real square root, which the source computes in floating point and casts
with `int(.)`). -/
def np_ceil_sqrt (n : ℕ) : ℕ := ceil_sqrt_from n n 0

/-- Embedding of `int(np.ceil(a / b))` for natural `a` and positive natural
`b` (true division followed by ceiling). -/
def ceil_div (a b : ℕ) : ℕ := (a + b - 1) / b

/-- `vector_length_to_tile_dims` from `src/plotting/data_conversion.py`:
`n_cols = np.ceil(np.sqrt(vector_length))`,
`n_rows = np.ceil(vector_length / n_cols)`, returned as `(n_rows, n_cols)`. -/
def vector_length_to_tile_dims (vector_length : ℕ) : ℕ × ℕ :=
  let n_cols := np_ceil_sqrt vector_length
  let n_rows := ceil_div vector_length n_cols
  (n_rows, n_cols)

/-- Embedding of `np.min` over a flat array of rationals (the value is
irrelevant for the empty list, which numpy rejects at runtime). -/
def np_min (l : List ℚ) : ℚ := l.foldl min (l.headD 0)

/-- Embedding of `np.max` over a flat array of rationals. -/
def np_max (l : List ℚ) : ℚ := l.foldl max (l.headD 0)

/-- `scale_data_to_8_bit` from `src/plotting/data_conversion.py`:
`min_data = np.min(data)`, `scale = 255. / (np.max(data) - min_data)`,
returns `(data - min_data) * scale` elementwise (the two locals of the
source are inlined here).  There is no special case for constant data: the
divisor `np.max(data) - min_data` is then zero (the source divides
floating-point 255 by zero; in this exact-rational embedding the total
division by zero returns zero instead of an IEEE infinity). -/
def scale_data_to_8_bit (data : List ℚ) : List ℚ :=
  data.map (fun x => (x - np_min data) * (255 / (np_max data - np_min data)))

/-- A source index into the data batch: either a flat batch index (vector
layout, to which the source appends the two full-extent axes and, for
grayscale data, the broadcast channel axis) or a `(row, col)` pair (grid
layout). -/
inductive Pull
  | vec (k : ℕ)
  | mat (i j : ℕ)
deriving DecidableEq, Repr

/-- One planned copy: the source index and the top-left corner
`(start_row, start_col)` of the destination pixel slice, which extends
`size_y` rows and `size_x` columns from there. -/
structure SlicePair where
  pull : Pull
  push_row : ℕ
  push_col : ℕ
deriving DecidableEq, Repr

/-- The computed plan: overall canvas shape and the list of copies. -/
structure GridPlan where
  output_shape : ℕ × ℕ
  pairs : List SlicePair
deriving DecidableEq, Repr

/-- `_data_shape_and_boundary_width_to_grid_slices` from
`src/plotting/data_conversion.py` (the `memoize` wrapper is semantically
transparent and omitted).  `none` embeds the failed shape assert.  The inner
`break` of the source exits only the inner python loop, which is embedded by
`takeWhile` over the columns of the current row: the outer loop over rows
continues. -/
def grid_slices (shape : List ℕ) (grid_shape : Option (ℕ × ℕ))
    (boundary_width : ℕ) : Option GridPlan :=
  if (shape.length = 3 ∨ shape.length = 4) ∨
      (shape.length = 5 ∧ shape.getLast? = some 3) then
    let is_colour : Bool := shape.getLast? == some 3
    let size_y := if is_colour then shape.reverse.getD 2 0 else shape.reverse.getD 1 0
    let size_x := if is_colour then shape.reverse.getD 1 0 else shape.reverse.getD 0 0
    let is_vector : Bool :=
      (shape.length == 4 && is_colour) || (shape.length == 3 && !is_colour)
    let shape0 := shape.getD 0 0
    let gs : ℕ × ℕ :=
      match grid_shape with
      | some g => g
      | none =>
        if is_vector then vector_length_to_tile_dims shape0
        else (shape0, shape.getD 1 0)
    let n_rows := gs.1
    let n_cols := gs.2
    let output_shape :=
      (n_rows * (size_y + boundary_width) + 1, n_cols * (size_x + boundary_width) + 1)
    let pairs := (List.range n_rows).flatMap (fun i =>
      if is_vector then
        ((List.range n_cols).takeWhile (fun j => i * n_cols + j != shape0)).map
          (fun j => { pull := Pull.vec (i * n_cols + j),
                      push_row := i * (size_y + 1) + 1,
                      push_col := j * (size_x + 1) + 1 })
      else
        (List.range n_cols).map
          (fun j => { pull := Pull.mat i j,
                      push_row := i * (size_y + 1) + 1,
                      push_col := j * (size_x + 1) + 1 }))
    some { output_shape := output_shape, pairs := pairs }
  else none

/-- The value of the rescaled batch at tile `t`, row `a`, column `b`:
`scale_data_to_8_bit` applied to the whole array (minimum and maximum taken
over all entries) and then indexed. -/
def scaled_at (data : List (List (List ℚ))) (t a b : ℕ) : ℚ :=
  let flat := data.flatten.flatten
  (((data.getD t []).getD a []).getD b 0 - np_min flat) *
    (255 / (np_max flat - np_min flat))

/-- Whether canvas coordinate `(r, c)` lies inside the destination slice of
`p` for tiles of size `size_y` by `size_x`. -/
def in_push_slice (p : SlicePair) (size_y size_x r c : ℕ) : Bool :=
  p.push_row ≤ r && r < p.push_row + size_y &&
    (p.push_col ≤ c && c < p.push_col + size_x)

/-- `put_data_in_grid` from `src/plotting/data_conversion.py`, on the
single-channel vector-batch path exercised by the claims: `data` is a batch
of `n` grayscale tiles (shape `(n, size_y, size_x)`).  The canvas is
pre-filled with `fill_colour` and each planned slice assignment writes the
rescaled grayscale value into all three channels (the `np.newaxis`
broadcast of the source); numpy slice assignment is embedded per pixel by
looking up the last planned slice covering the pixel.  The uint8 cast of
the source is exact on the integer-valued examples considered here and is
not modelled. -/
def put_data_in_grid (data : List (List (List ℚ))) (grid_shape : Option (ℕ × ℕ))
    (fill_colour : ℚ × ℚ × ℚ) (boundary_width : ℕ) :
    Option (List (List (ℚ × ℚ × ℚ))) :=
  let n := data.length
  let size_y := (data.getD 0 []).length
  let size_x := ((data.getD 0 []).getD 0 []).length
  match grid_slices [n, size_y, size_x] grid_shape boundary_width with
  | none => none
  | some plan =>
    some ((List.range plan.output_shape.1).map (fun r =>
      (List.range plan.output_shape.2).map (fun c =>
        match plan.pairs.reverse.find? (fun p => in_push_slice p size_y size_x r c) with
        | some p =>
          match p.pull with
          | Pull.vec k =>
            let g := scaled_at data k (r - p.push_row) (c - p.push_col)
            (g, g, g)
          | Pull.mat _ _ => fill_colour
        | none => fill_colour)))

/-- The concrete batch for the C5 example: 4 single-channel 2 by 2 tiles
holding the values 0 to 15, so that the rescale factor is exactly 17. -/
def example_batch : List (List (List ℚ)) :=
  [[[0, 1], [2, 3]], [[4, 5], [6, 7]], [[8, 9], [10, 11]], [[12, 13], [14, 15]]]

/-- Written from the words of the spec, for comparison with the code: pixel
`(r, c)` of the expected 7 by 7 canvas for `example_batch` with border 1.
Grid cell `(i, j)` holds tile `2 * i + j`, whose rescaled pixels
(`17 * value` here, minimum 0 to 0, maximum 15 to 255) sit at rows
`i * (2 + 1) + 1` onward and columns `j * (2 + 1) + 1` onward; every other
pixel keeps the fill colour `(0, 0, 128)`. -/
def expected_pixel (r c : ℕ) : ℚ × ℚ × ℚ :=
  if (r = 1 ∨ r = 2 ∨ r = 4 ∨ r = 5) ∧ (c = 1 ∨ c = 2 ∨ c = 4 ∨ c = 5) then
    let i := if r ≤ 2 then 0 else 1
    let j := if c ≤ 2 then 0 else 1
    let a := r - (3 * i + 1)
    let b := c - (3 * j + 1)
    let v : ℚ := 17 * (4 * (2 * i + j) + 2 * a + b)
    (v, v, v)
  else (0, 0, 128)

/-- The expected canvas of the C5 example, from the words of the spec. -/
def expected_canvas : List (List (ℚ × ℚ × ℚ)) :=
  (List.range 7).map (fun r => (List.range 7).map (fun c => expected_pixel r c))

/-- State of a `RecordBuffer` from `src/plotting/data_conversion.py`.  The
storage array is lazily allocated (`None` until the first call); slots never
yet written hold `np.nan`, embedded as `Option.none` since the buffer
contents are only ever stored and read back, never computed with. -/
structure RecordBuffer (α : Type) where
  buffer_len : ℕ
  buffer : Option (List (Option α))
  ix : ℕ

/-- `RecordBuffer.__init__`. -/
def RecordBuffer.init (α : Type) (buffer_len : ℕ) : RecordBuffer α :=
  { buffer_len := buffer_len, buffer := none, ix := 0 }

/-- `RecordBuffer.__call__`: allocate on first use (all slots `nan`), store
the sample at the write position, advance the position modulo the capacity,
and return the contents rotated so that slot `k` of the result is buffer
slot `(k + new_ix) % capacity` (the fancy-indexing line
`self._buffer[(self._base_indices + self._ix) % self._buffer_len]`). -/
def RecordBuffer.call {α : Type} (rb : RecordBuffer α) (data : α) :
    List (Option α) × RecordBuffer α :=
  let buf := rb.buffer.getD (List.replicate rb.buffer_len none)
  let buf2 := buf.set rb.ix (some data)
  let ix2 := (rb.ix + 1) % rb.buffer_len
  ((List.range rb.buffer_len).map (fun k => buf2.getD ((k + ix2) % rb.buffer_len) none),
   { rb with buffer := some buf2, ix := ix2 })

/-- Push a whole list of samples through a fresh buffer of capacity `c`,
returning the value of the final call (empty when no sample is pushed). -/
def RecordBuffer.runAll {α : Type} (c : ℕ) (xs : List α) : List (Option α) :=
  (xs.foldl (fun p x => p.2.call x) ([], RecordBuffer.init α c)).1

/-! ## Definitions: decorators.py

The symbolic-graph engine behind `AutoCompilingFunction` is abstracted as
follows.  Values flowing through a compiled function (numpy arrays, and the
sample values attached to symbolic tensors in the test-value modes) are drawn
from a type `V`.  The stateful (shared) variables form a store indexed by
natural numbers.  A symbolic function is embedded by its propagation
semantics: from concrete argument values and the current store it yields the
outputs object returned by the wrapped definition together with the declared
updates.  `theano.function(inputs, outputs, updates)` is embedded as the
artifact that evaluates that same semantics on each call and applies the
updates to the store, which is exactly the numeric behaviour of the compiled
graph. -/

/-- The four compile modes accepted by `AutoCompilingFunction.__init__`
(the string alias `tr` for `test_and_run` is resolved before the assert and
is not modelled separately). -/
inductive Mode
  | run
  | test_and_run
  | debug
  | omniscent
deriving DecidableEq, Repr

/-- Which decorator the wrapped definition carries, deciding how
`AutoCompilingFunction.__call__` destructures its return value. -/
inductive FKind
  | stateless
  | standard
  | updater
deriving DecidableEq, Repr

/-- The outputs object of a call: a bare tensor (stateless functions) or a
tuple of tensors.  The distinction carries the python
`isinstance(outputs, (list, tuple))` test. -/
inductive Outs (V : Type)
  | single (v : V)
  | many (vs : List V)

/-- `if self._single_output: outputs = (outputs, )` tuple-ization. -/
def Outs.toList {V : Type} : Outs V → List V
  | Outs.single v => [v]
  | Outs.many vs => vs

/-- The store of shared (stateful) variables, by variable id. -/
def Store (V : Type) : Type := ℕ → V

/-- `shared_var.set_value(v)`. -/
def Store.set {V : Type} (s : Store V) (i : ℕ) (v : V) : Store V :=
  fun j => if j = i then v else s j

/-- Replay a list of `(shared_var, new_value)` updates onto the store, in
order. -/
def applyUpdates {V : Type} (upds : List (ℕ × V)) (s : Store V) : Store V :=
  upds.foldl (fun t p => t.set p.1 p.2) s

/-- A decorated symbolic function: its kind and its sample-value propagation
semantics (arguments and store to returned outputs object and declared
updates). -/
structure SymFcn (V : Type) where
  kind : FKind
  propagate : List V → Store V → Outs V × List (ℕ × V)

/-- Lines 340 to 349 of `decorators.py`: destructure the wrapped
definition's return value into `(outputs, updates)` according to the
decorator kind (stateless: the bare return and no updates; standard: the
pair as returned; updater: the empty tuple `()` and the returned updates). -/
def destructure {V : Type} (k : FKind) (rv : Outs V × List (ℕ × V)) :
    Outs V × List (ℕ × V) :=
  match k with
  | FKind.stateless => (rv.1, [])
  | FKind.standard => rv
  | FKind.updater => (Outs.many [], rv.2)

/-- A compiled artifact: the numeric evaluation of the fixed graph on fresh
arguments and the current store, and the updates it applies. -/
structure Compiled (V : Type) where
  out : List V → Store V → Outs V
  upd : List V → Store V → List (ℕ × V)

/-- The mutable state of an `AutoCompilingFunction`.  `callbacks` holds
registered post-call callbacks by id (the callbacks take no arguments and
only their identity and invocation order are observable).
`there_are_debug_variables`, `single_output` and `debug_variable_keys` are
the attributes the first call stores for later calls (before the first call
the python object lacks `_there_are_debug_variables`; every code path reads
it only after assigning it, so a default of `false` is faithful). -/
structure ACF (V : Type) where
  fcn : SymFcn V
  mode : Mode
  compiled_fcn : Option (Compiled V)
  debug_variable_getter : Option (List (String × (List V → Store V → V)))
  debug_values : Option (List (String × V))
  callbacks : List ℕ
  there_are_debug_variables : Bool
  single_output : Bool
  debug_variable_keys : List String

/-- `AutoCompilingFunction.__init__` (the `cast_floats_to_floatX` flag and
the global test-value configuration only affect tensor dtypes, which the
abstraction does not carry). -/
def ACF.init {V : Type} (fcn : SymFcn V) (mode : Mode) : ACF V :=
  { fcn := fcn
    mode := mode
    compiled_fcn := none
    debug_variable_getter := none
    debug_values := none
    callbacks := []
    there_are_debug_variables := false
    single_output := false
    debug_variable_keys := [] }

/-- `AutoCompilingFunction.add_callback`. -/
def ACF.add_callback {V : Type} (st : ACF V) (fcn : ℕ) : ACF V :=
  { st with callbacks := st.callbacks ++ [fcn] }

/-- `AutoCompilingFunction.set_debug_variables` for a custom callable source
(the `locals` and `locals+class` string selectors resolve to such a callable
and are not modelled separately).  The source is modelled already filtered
to its symbolic entries, as non-symbolic entries are silently dropped at
compile time. -/
def ACF.set_debug_variables {V : Type} (st : ACF V)
    (callback : List (String × (List V → Store V → V))) : Except String (ACF V) :=
  if st.debug_variable_getter.isSome then
    Except.error "You tried to set debug variables twice"
  else if st.compiled_fcn.isSome then
    Except.error "You can only set debug variables before the first call to this function"
  else
    Except.ok { st with debug_variable_getter := some callback }

/-- `AutoCompilingFunction.get_debug_values`: raises unless a debug snapshot
has been recorded, choosing the message by the first failing condition. -/
def ACF.get_debug_values {V : Type} (st : ACF V) :
    Except String (List (String × V)) :=
  match st.debug_values with
  | some d => Except.ok d
  | none =>
    if st.debug_variable_getter.isNone then
      Except.error "You need to define debug variables before requesting debug values"
    else if st.compiled_fcn.isNone then
      Except.error "You need to run this function at least once before requesting debug values"
    else if st.mode ≠ Mode.omniscent then
      Except.error "Function must be compiled in omniscent mode to view debug variables"
    else
      Except.error "I do not know why you are not getting an answer"

/-- Lines 382 to 395 of `decorators.py`: run the compiled artifact.  When
debug variables were set up, the returned tuple is split into the numeric
outputs and the name-keyed debug snapshot (`all_out[:-k]` and
`all_out[-k:]`), unwrapping a single output; the post-call callbacks fire
in registration order.  The result quadruple is (returned value, ids of the
callbacks fired in order, new wrapper state, new store). -/
def ACF.runCompiled {V : Type} (st : ACF V) (c : Compiled V) (args : List V)
    (store : Store V) : Except String (Outs V × List ℕ × ACF V × Store V) :=
  let store2 := applyUpdates (c.upd args store) store
  if st.there_are_debug_variables then
    match c.out args store with
    | Outs.many all_out =>
      let k := st.debug_variable_keys.length
      let dvals := all_out.drop (all_out.length - k)
      let numeric := all_out.take (all_out.length - k)
      let st2 := { st with debug_values := some (st.debug_variable_keys.zip dvals) }
      if st.single_output then
        match numeric with
        | [v] => Except.ok (Outs.single v, st.callbacks, st2, store2)
        | _ => Except.error "could not unpack the single output"
      else
        Except.ok (Outs.many numeric, st.callbacks, st2, store2)
    | Outs.single _ =>
      Except.error "internal: a debug-instrumented artifact returns a tuple"
  else
    Except.ok (c.out args store, st.callbacks, st, store2)

/-- `AutoCompilingFunction.__call__`.  On the first call (empty compiled
slot) the wrapped definition is traced:

* with a registered debug-variable source, the source values are appended
  to the outputs and a compiled artifact is built and immediately run
  (this branch is taken in every mode, `debug` included; the source must
  contribute at least one symbolic entry);
* otherwise, in `debug` mode, nothing is compiled: the declared updates are
  replayed onto the store by hand and the sample values of the outputs are
  returned directly, as a list when the outputs object is a tuple and bare
  otherwise — returning before the callback loop is reached;
* otherwise a plain artifact is compiled and immediately run.

Later calls run the cached artifact. -/
def ACF.call {V : Type} (st : ACF V) (args : List V) (store : Store V) :
    Except String (Outs V × List ℕ × ACF V × Store V) :=
  match st.compiled_fcn with
  | some c => st.runCompiled c args store
  | none =>
    let rv := destructure st.fcn.kind (st.fcn.propagate args store)
    match st.debug_variable_getter with
    | some getter =>
      if getter.isEmpty then
        Except.error "debug_variable_getter did not return any symbolic variables"
      else
        let single_output : Bool :=
          match rv.1 with
          | Outs.single _ => true
          | Outs.many _ => false
        let c : Compiled V :=
          { out := fun a s => Outs.many
              ((destructure st.fcn.kind (st.fcn.propagate a s)).1.toList
                ++ getter.map (fun kv => kv.2 a s))
            upd := fun a s => (destructure st.fcn.kind (st.fcn.propagate a s)).2 }
        let st2 := { st with
          compiled_fcn := some c
          there_are_debug_variables := true
          single_output := single_output
          debug_variable_keys := getter.map Prod.fst }
        st2.runCompiled c args store
    | none =>
      if st.mode = Mode.debug then
        Except.ok (rv.1, [], { st with there_are_debug_variables := false },
          applyUpdates rv.2 store)
      else
        let c : Compiled V :=
          { out := fun a s => (destructure st.fcn.kind (st.fcn.propagate a s)).1
            upd := fun a s => (destructure st.fcn.kind (st.fcn.propagate a s)).2 }
        let st2 := { st with
          compiled_fcn := some c
          there_are_debug_variables := false }
        st2.runCompiled c args store

/-- Repeated invocation: thread the wrapper state and the store through a
list of argument lists. -/
def ACF.callSeq {V : Type} : ACF V → Store V → List (List V) →
    Except String (ACF V × Store V)
  | st, store, [] => Except.ok (st, store)
  | st, store, args :: rest =>
    match st.call args store with
    | Except.error e => Except.error e
    | Except.ok (_, _, st2, store2) => ACF.callSeq st2 store2 rest

/-- The behaviour the amended claim C1 predicts for one `debug`-mode call
with no registered debug-variable source: the sample values of the outputs
are returned as produced by a fresh propagation (bare value or list,
matching the outputs object), no callback fires, the wrapper state is
unchanged apart from the recorded flag, and the declared updates are
written back onto the store by hand. -/
def debug_call_result {V : Type} (st : ACF V) (args : List V) (store : Store V) :
    Except String (Outs V × List ℕ × ACF V × Store V) :=
  Except.ok ((destructure st.fcn.kind (st.fcn.propagate args store)).1, [],
    { st with there_are_debug_variables := false },
    applyUpdates (destructure st.fcn.kind (st.fcn.propagate args store)).2 store)

/-- A concrete standard symbolic function for concrete runs over `V = ℤ`:
one output `args[0] + store 0` and one declared update setting shared
variable 0 to `store 0 + 1`. -/
def exFcn : SymFcn ℤ :=
  { kind := FKind.standard
    propagate := fun args store =>
      (Outs.many [args.headD 0 + store 0], [(0, store 0 + 1)]) }

/-- A concrete debug-variable source: one symbolic entry named `x` whose
value is the first argument. -/
def exGetter : List (String × (List ℤ → Store ℤ → ℤ)) :=
  [("x", fun args _ => args.headD 0)]

/-- A concrete store with all shared variables zero. -/
def exStore : Store ℤ := fun _ => 0

/-- The wrapper for `exFcn` in `debug` mode right after
`set_debug_variables(exGetter)`. -/
def exACFdbg : ACF ℤ :=
  { ACF.init exFcn Mode.debug with debug_variable_getter := some exGetter }

/-- The wrapper for `exFcn` in `run` mode right after
`set_debug_variables(exGetter)`. -/
def exACFrun : ACF ℤ :=
  { ACF.init exFcn Mode.run with debug_variable_getter := some exGetter }

/-! ## Definitions: SymbolicReturn (decorators.py) -/

/-- A python object as far as the `SymbolicReturn` checks can observe it: a
symbolic `Variable` (with `shared = true` for the `SharedVariable`
subclass) or any other object. -/
inductive PyObj
  | var (shared : Bool)
  | obj
deriving DecidableEq, Repr

/-- `isinstance(x, Variable)` (shared variables are variables). -/
def PyObj.isVariable : PyObj → Bool
  | PyObj.var _ => true
  | PyObj.obj => false

/-- `isinstance(x, SharedVariable)`. -/
def PyObj.isShared : PyObj → Bool
  | PyObj.var s => s
  | PyObj.obj => false

/-- The `outputs` argument of `SymbolicReturn`: a python tuple of objects,
or a value of any other type. -/
inductive TupleArg
  | tup (items : List PyObj)
  | notTuple
deriving DecidableEq, Repr

/-- The `updates` argument of `SymbolicReturn`: a python list whose entries
are themselves sequences of objects (of any length), or a value of any
other type. -/
inductive ListArg
  | list (items : List (List PyObj))
  | notList
deriving DecidableEq, Repr

/-- The exceptions the `SymbolicReturn` constructor can raise. -/
inductive PyErr
  | SymbolicFormatError (msg : String)
  | AttributeError (msg : String)
deriving DecidableEq, Repr

/-- A validated standard return value. -/
structure SymbolicReturn where
  outputs : List PyObj
  updates : List (List PyObj)
deriving DecidableEq, Repr

/-- `SymbolicReturn.__init__` from `decorators.py`.  Each failed check
attempts to raise `SymbolicFormatError` with a message interpolating
`self._fcn`; but a `SymbolicReturn` instance has no `_fcn` attribute
(nothing assigns it and the class declares none), so evaluating the message
raises `AttributeError` before the intended exception is constructed. -/
def SymbolicReturn.make (outputs : TupleArg) (updates : ListArg) :
    Except PyErr SymbolicReturn :=
  let attrErr : PyErr :=
    PyErr.AttributeError "SymbolicReturn instance has no attribute _fcn"
  match outputs with
  | TupleArg.notTuple => Except.error attrErr
  | TupleArg.tup outs =>
    if outs.all PyObj.isVariable then
      match updates with
      | ListArg.notList => Except.error attrErr
      | ListArg.list ups =>
        if ups.all (fun up => up.length == 2) &&
            ups.all (fun up =>
              (up.getD 0 PyObj.obj).isShared && (up.getD 1 PyObj.obj).isVariable) then
          Except.ok { outputs := outs, updates := ups }
        else Except.error attrErr
    else Except.error attrErr

/-- `SymbolicReturn.__iter__`: the value iterates as `(outputs, updates)`. -/
def SymbolicReturn.iter (sr : SymbolicReturn) : List PyObj × List (List PyObj) :=
  (sr.outputs, sr.updates)

/-! ## Theorems: data_conversion.py -/

theorem ceil_sqrt_from_spec (n : ℕ) : ∀ fuel c, n ≤ (c + fuel) * (c + fuel) →
    (∀ d, d < c → d * d < n) →
    n ≤ ceil_sqrt_from n fuel c * ceil_sqrt_from n fuel c ∧
      ∀ d, d < ceil_sqrt_from n fuel c → d * d < n := by
  intro fuel
  induction fuel with
  | zero =>
    intro c hub hmin
    refine ⟨?_, ?_⟩ <;> simp only [ceil_sqrt_from]
    · simpa using hub
    · exact hmin
  | succ fuel ih =>
    intro c hub hmin
    by_cases hc : n ≤ c * c
    · have hout : ceil_sqrt_from n (fuel + 1) c = c := by
        simp [ceil_sqrt_from, hc]
      rw [hout]
      exact ⟨hc, hmin⟩
    · have hub' : n ≤ (c + 1 + fuel) * (c + 1 + fuel) := by
        have : c + (fuel + 1) = c + 1 + fuel := by omega
        rwa [this] at hub
      have hmin' : ∀ d, d < c + 1 → d * d < n := by
        intro d hd
        rcases Nat.lt_or_ge d c with h | h
        · exact hmin d h
        · have : d = c := by omega
          subst this; omega
      simpa [ceil_sqrt_from, hc] using ih (c + 1) hub' hmin'

theorem np_ceil_sqrt_spec (n : ℕ) :
    n ≤ np_ceil_sqrt n * np_ceil_sqrt n ∧
      ∀ d, d < np_ceil_sqrt n → d * d < n := by
  have hub : n ≤ (0 + n) * (0 + n) := by
    simp only [Nat.zero_add]
    rcases Nat.eq_zero_or_pos n with h | h
    · simp [h]
    · exact Nat.le_mul_of_pos_left n h
  have h := ceil_sqrt_from_spec n n 0 hub (by omega)
  simpa [np_ceil_sqrt] using h

theorem np_ceil_sqrt_pos (n : ℕ) (h : 1 ≤ n) : 1 ≤ np_ceil_sqrt n := by
  rcases Nat.eq_zero_or_pos (np_ceil_sqrt n) with h0 | h1
  · have := (np_ceil_sqrt_spec n).1
    rw [h0] at this; omega
  · exact h1

theorem le_np_ceil_sqrt_sq (n : ℕ) : n ≤ np_ceil_sqrt n * np_ceil_sqrt n :=
  (np_ceil_sqrt_spec n).1

theorem np_ceil_sqrt_pred_sq_lt (n : ℕ) (h : 1 ≤ n) :
    (np_ceil_sqrt n - 1) * (np_ceil_sqrt n - 1) < n := by
  have h1 := np_ceil_sqrt_pos n h
  exact (np_ceil_sqrt_spec n).2 _ (by omega)

theorem le_mul_ceil_div (a b : ℕ) (hb : 1 ≤ b) : a ≤ b * ceil_div a b := by
  unfold ceil_div
  have h1 := Nat.div_add_mod (a + b - 1) b
  have h2 : (a + b - 1) % b < b := Nat.mod_lt _ hb
  generalize b * ((a + b - 1) / b) = m at h1 ⊢
  omega

theorem mul_ceil_div_lt (a b : ℕ) (ha : 1 ≤ a) (hb : 1 ≤ b) :
    b * ceil_div a b < a + b := by
  unfold ceil_div
  have h1 := Nat.div_add_mod (a + b - 1) b
  have h2 : (a + b - 1) % b < b := Nat.mod_lt _ hb
  generalize b * ((a + b - 1) / b) = m at h1 ⊢
  omega

/-- C7 helper: the second component is the ceiling of the square root and the
first is the matching ceiling quotient. -/
theorem vector_length_to_tile_dims_eq (n : ℕ) :
    vector_length_to_tile_dims n =
      (ceil_div n (np_ceil_sqrt n), np_ceil_sqrt n) := rfl

/-- C7: for positive `n`, writing `(rows, cols) = vector_length_to_tile_dims n`,
`cols` is the least integer whose square is at least `n` (that is,
`cols = ceil (sqrt n)`) and `rows` is the least integer with
`cols * rows ≥ n` (that is, `rows = ceil (n / cols)`); and
`vector_length_to_tile_dims 10 = (3, 4)`. -/
theorem vector_length_to_tile_dims_spec (n : ℕ) (h : 1 ≤ n) :
    (n ≤ (vector_length_to_tile_dims n).2 * (vector_length_to_tile_dims n).2 ∧
      ((vector_length_to_tile_dims n).2 - 1) * ((vector_length_to_tile_dims n).2 - 1) < n) ∧
    (n ≤ (vector_length_to_tile_dims n).2 * (vector_length_to_tile_dims n).1 ∧
      (vector_length_to_tile_dims n).2 * (vector_length_to_tile_dims n).1 <
        n + (vector_length_to_tile_dims n).2) ∧
    vector_length_to_tile_dims 10 = (3, 4) := by
  have hc : 1 ≤ np_ceil_sqrt n := np_ceil_sqrt_pos n h
  refine ⟨⟨le_np_ceil_sqrt_sq n, np_ceil_sqrt_pred_sq_lt n h⟩,
    ⟨le_mul_ceil_div n (np_ceil_sqrt n) hc,
     mul_ceil_div_lt n (np_ceil_sqrt n) h hc⟩, by decide⟩

/-- C7 witness at `n = 10`. -/
theorem vector_length_to_tile_dims_spec_witness :
    (10 ≤ (vector_length_to_tile_dims 10).2 * (vector_length_to_tile_dims 10).2 ∧
      ((vector_length_to_tile_dims 10).2 - 1) * ((vector_length_to_tile_dims 10).2 - 1) < 10) ∧
    (10 ≤ (vector_length_to_tile_dims 10).2 * (vector_length_to_tile_dims 10).1 ∧
      (vector_length_to_tile_dims 10).2 * (vector_length_to_tile_dims 10).1 <
        10 + (vector_length_to_tile_dims 10).2) ∧
    vector_length_to_tile_dims 10 = (3, 4) :=
  vector_length_to_tile_dims_spec 10 (by decide)

/-- C10: for positive `n`, the grid `(rows, cols)` returned by
`vector_length_to_tile_dims n` has at least `n` cells, and the number of
spare cells `rows * cols - n` is smaller than `cols`, so all spare cells lie
in the final row. -/
theorem tile_dims_cover (n : ℕ) (h : 1 ≤ n) :
    n ≤ (vector_length_to_tile_dims n).1 * (vector_length_to_tile_dims n).2 ∧
    (vector_length_to_tile_dims n).1 * (vector_length_to_tile_dims n).2 - n <
      (vector_length_to_tile_dims n).2 := by
  have hc : 1 ≤ np_ceil_sqrt n := np_ceil_sqrt_pos n h
  have h1 := le_mul_ceil_div n (np_ceil_sqrt n) hc
  have h2 := mul_ceil_div_lt n (np_ceil_sqrt n) h hc
  unfold vector_length_to_tile_dims
  simp only
  constructor
  · calc n ≤ np_ceil_sqrt n * ceil_div n (np_ceil_sqrt n) := h1
    _ = ceil_div n (np_ceil_sqrt n) * np_ceil_sqrt n := Nat.mul_comm _ _
  · have := Nat.mul_comm (np_ceil_sqrt n) (ceil_div n (np_ceil_sqrt n))
    omega

/-- C10 witness at `n = 5` (grid `(3, 3)`, nine cells, four spare). -/
theorem tile_dims_cover_witness :
    5 ≤ (vector_length_to_tile_dims 5).1 * (vector_length_to_tile_dims 5).2 ∧
    (vector_length_to_tile_dims 5).1 * (vector_length_to_tile_dims 5).2 - 5 <
      (vector_length_to_tile_dims 5).2 :=
  tile_dims_cover 5 (by decide)

/-- C5: the particular example of the claim holds for the default border 1
(`put_data_in_grid` on `example_batch` produces the expected 7 by 7 canvas),
but the general gap property fails: at `boundary_width = 2` on the same
batch shape `(4, 2, 2)`, the canvas shape `(9, 9)` accounts for 2-pixel
gaps while every destination slice is still placed at offsets
`i * (tile + 1) + 1`, so the slice of grid cell `(0, 1)` starts at column 4
and leaves only a 1-pixel gap after the columns 1 and 2 of cell `(0, 0)`
(and dead space at the bottom and right edges).  The source hardcodes `+ 1`
in the slice offsets where its own canvas-shape formula uses the boundary
width. -/
theorem put_data_in_grid_boundary_behaviour :
    (put_data_in_grid example_batch none (0, 0, 128) 1 = some expected_canvas) ∧
    (grid_slices [4, 2, 2] none 2 = some
      { output_shape := (9, 9),
        pairs := [{ pull := Pull.vec 0, push_row := 1, push_col := 1 },
                  { pull := Pull.vec 1, push_row := 1, push_col := 4 },
                  { pull := Pull.vec 2, push_row := 4, push_col := 1 },
                  { pull := Pull.vec 3, push_row := 4, push_col := 4 }] }) := by
  constructor
  · norm_num [put_data_in_grid, grid_slices, expected_canvas, expected_pixel,
      example_batch, scaled_at, in_push_slice, np_min, np_max,
      vector_length_to_tile_dims, np_ceil_sqrt, ceil_sqrt_from, ceil_div,
      List.range_succ]
  · decide

/-- C6: on a flat batch of 5 tiles with an explicitly supplied `(3, 3)` grid
(9 cells, at least 5), the `break` of the source exits only the inner loop,
so iteration resumes in the following row: the plan contains 8 pairs rather
than 5, and the source indices 6, 7 and 8 point past the end of the batch
(`put_data_in_grid` would fault on them). -/
theorem grid_slices_break_overrun :
    ((grid_slices [5, 2, 2] (some (3, 3)) 1).map (fun p => p.pairs.length) = some 8) ∧
    ((grid_slices [5, 2, 2] (some (3, 3)) 1).map (fun p => p.pairs.map SlicePair.pull) =
      some [Pull.vec 0, Pull.vec 1, Pull.vec 2, Pull.vec 3, Pull.vec 4,
            Pull.vec 6, Pull.vec 7, Pull.vec 8]) := by
  constructor <;> decide

theorem np_min_le_max (l : List ℚ) : np_min l ≤ np_max l := by
  unfold np_min np_max
  induction l with
  | nil => simp
  | cons a t _ =>
    simp only [List.headD_cons, List.foldl_cons]
    have : ∀ (s : List ℚ) (x y : ℚ), x ≤ y →
        s.foldl min x ≤ s.foldl max y := by
      intro s
      induction s with
      | nil => intro x y h; simpa using h
      | cons b u ihs =>
        intro x y h
        simp only [List.foldl_cons]
        exact ihs _ _ (le_trans (min_le_left _ _) (le_trans h (le_max_left _ _)))
    exact this t (min a a) (max a a) (by simp)

theorem foldl_min_const (a : ℚ) : ∀ l : List ℚ, (∀ x ∈ l, x = a) →
    l.foldl min a = a := by
  intro l
  induction l with
  | nil => simp
  | cons b t ih =>
    intro h
    have hb : b = a := h b (by simp)
    simp only [List.foldl_cons, hb, min_self]
    exact ih (fun x hx => h x (by simp [hx]))

theorem foldl_max_const (a : ℚ) : ∀ l : List ℚ, (∀ x ∈ l, x = a) →
    l.foldl max a = a := by
  intro l
  induction l with
  | nil => simp
  | cons b t ih =>
    intro h
    have hb : b = a := h b (by simp)
    simp only [List.foldl_cons, hb, max_self]
    exact ih (fun x hx => h x (by simp [hx]))

/-- C8: on data whose maximum exceeds its minimum, `scale_data_to_8_bit`
returns elementwise `(x - min) * 255 / (max - min)`, sending every occurrence
of the minimum to `0` and of the maximum to `255`; `[0, 5, 10]` maps to
`[0, 255/2, 255]` (that is, `[0, 127.5, 255]`); and on constant data the
divisor `max - min` is zero and no branch of the code avoids the division. -/
theorem scale_data_to_8_bit_spec (data : List ℚ) (hlt : np_min data < np_max data) :
    (scale_data_to_8_bit data =
        data.map (fun x => (x - np_min data) * 255 / (np_max data - np_min data))) ∧
    (∀ i, i < data.length → data.getD i 0 = np_min data →
        (scale_data_to_8_bit data).getD i 0 = 0) ∧
    (∀ i, i < data.length → data.getD i 0 = np_max data →
        (scale_data_to_8_bit data).getD i 0 = 255) ∧
    (scale_data_to_8_bit [0, 5, 10] = [0, 255/2, 255]) ∧
    (∀ l : List ℚ, (∀ x ∈ l, x = l.headD 0) → np_max l - np_min l = 0) := by
  have hne : np_max data - np_min data ≠ 0 := sub_ne_zero.mpr (ne_of_gt hlt)
  have hmap : ∀ (f : ℚ → ℚ) (i : ℕ), i < data.length →
      (data.map f).getD i 0 = f (data.getD i 0) := by
    intro f i hi
    rw [List.getD_eq_getElem?_getD, List.getD_eq_getElem?_getD, List.getElem?_map,
      List.getElem?_eq_getElem hi]
    simp
  refine ⟨?_, ?_, ?_, ?_, ?_⟩
  · unfold scale_data_to_8_bit
    apply List.map_congr_left
    intro x _
    rw [mul_div_assoc]
  · intro i hi hmin
    unfold scale_data_to_8_bit
    rw [hmap _ i hi, hmin]
    ring
  · intro i hi hmax
    unfold scale_data_to_8_bit
    rw [hmap _ i hi, hmax]
    field_simp
  · norm_num [scale_data_to_8_bit, np_min, np_max]
  · intro l hconst
    unfold np_min np_max
    rw [foldl_min_const _ _ hconst, foldl_max_const _ _ hconst]
    ring

/-- C8 witness at `data = [0, 5, 10]`. -/
theorem scale_data_to_8_bit_spec_witness :
    np_min [0, 5, 10] < np_max [0, 5, 10] ∧
    scale_data_to_8_bit [0, 5, 10] = [0, 255/2, 255] :=
  ⟨by norm_num [np_min, np_max],
   (scale_data_to_8_bit_spec [0, 5, 10] (by norm_num [np_min, np_max])).2.2.2.1⟩

theorem getD_map_range {β : Type} (n k : ℕ) (f : ℕ → β) (d : β) (hk : k < n) :
    ((List.range n).map f).getD k d = f k := by
  rw [List.getD_eq_getElem?_getD, List.getElem?_map, List.getElem?_range hk]
  rfl

theorem getD_set_self {β : Type} (l : List β) (i : ℕ) (a d : β) (h : i < l.length) :
    (l.set i a).getD i d = a := by
  rw [List.getD_eq_getElem?_getD, List.getElem?_set_eq_of_lt a h]
  rfl

theorem last_slot_mod (c ix : ℕ) (hc : 1 ≤ c) (hix : ix < c) :
    (c - 1 + (ix + 1) % c) % c = ix := by
  rcases Nat.lt_or_ge (ix + 1) c with h | h
  · rw [Nat.mod_eq_of_lt h]
    have he : c - 1 + (ix + 1) = c + ix := by omega
    rw [he, Nat.add_mod_left, Nat.mod_eq_of_lt hix]
  · have he : ix + 1 = c := by omega
    rw [he, Nat.mod_self, Nat.add_zero, Nat.mod_eq_of_lt (by omega)]
    omega

/-- C9: a push on a well-formed buffer of capacity `c ≥ 1` stores the sample
at the write position, advances the position modulo `c`, and returns the
length-`c` contents rotated oldest-first with the just-pushed sample at index
`c - 1`; a fresh capacity-3 buffer pushed with 1, 2, 3, 4 returns
`[2, 3, 4]` after the fourth push, and after only one push the never-written
slots still hold the not-a-number sentinel: `[nan, nan, 1]`. -/
theorem RecordBuffer_call_spec {α : Type} (c : ℕ) (rb : RecordBuffer α)
    (l : List (Option α)) (x : α) (hc : 1 ≤ c) (hlen : rb.buffer_len = c)
    (hbuf : rb.buffer = some l) (hl : l.length = c) (hix : rb.ix < c) :
    ((rb.call x).2.buffer = some (l.set rb.ix (some x))) ∧
    ((rb.call x).2.ix = (rb.ix + 1) % c) ∧
    ((rb.call x).1.length = c) ∧
    ((rb.call x).1.getD (c - 1) none = some x) ∧
    (∀ k, k < c → (rb.call x).1.getD k none =
        (l.set rb.ix (some x)).getD ((k + (rb.ix + 1) % c) % c) none) ∧
    (RecordBuffer.runAll 3 ([1, 2, 3, 4] : List ℤ) = [some 2, some 3, some 4]) ∧
    (RecordBuffer.runAll 3 ([1] : List ℤ) = [none, none, some 1]) := by
  unfold RecordBuffer.call
  simp only [hlen, hbuf, Option.getD_some]
  refine ⟨by trivial, by trivial, by simp, ?_, ?_, by decide, by decide⟩
  · rw [getD_map_range c (c - 1) _ none (by omega), last_slot_mod c rb.ix hc hix]
    exact getD_set_self l rb.ix (some x) none (by omega)
  · intro k hk
    rw [getD_map_range c k _ none hk]

/-- C9 witness: a concrete push on a concrete well-formed buffer
(capacity 3, one slot already written, write position 1). -/
theorem RecordBuffer_call_spec_witness :
    letI rb : RecordBuffer ℤ :=
      { buffer_len := 3, buffer := some [some 7, none, none], ix := 1 }
    ((rb.call 9).2.buffer = some ([some 7, none, none].set 1 (some 9))) ∧
    ((rb.call 9).2.ix = (1 + 1) % 3) ∧
    ((rb.call 9).1.length = 3) ∧
    ((rb.call 9).1.getD (3 - 1) none = some 9) ∧
    (∀ k, k < 3 → (rb.call 9).1.getD k none =
        ([some 7, none, none].set 1 (some 9)).getD ((k + (1 + 1) % 3) % 3) none) ∧
    (RecordBuffer.runAll 3 ([1, 2, 3, 4] : List ℤ) = [some 2, some 3, some 4]) ∧
    (RecordBuffer.runAll 3 ([1] : List ℤ) = [none, none, some 1]) :=
  RecordBuffer_call_spec 3 _ [some 7, none, none] 9 (by decide) rfl rfl (by decide) (by decide)

/-! ## Theorems: decorators.py -/

theorem debug_call_eq {V : Type} (st : ACF V) (args : List V) (store : Store V)
    (h1 : st.mode = Mode.debug) (h2 : st.debug_variable_getter = none)
    (h3 : st.compiled_fcn = none) :
    st.call args store = debug_call_result st args store := by
  unfold ACF.call debug_call_result
  rw [h3, h2]
  simp [h1]

theorem debug_callSeq_inv {V : Type} : ∀ (argss : List (List V)) (st : ACF V)
    (store : Store V) (st2 : ACF V) (store2 : Store V),
    ACF.callSeq st store argss = Except.ok (st2, store2) →
    st.mode = Mode.debug → st.debug_variable_getter = none →
    st.compiled_fcn = none →
    st2.compiled_fcn = none ∧ st2.mode = Mode.debug ∧
      st2.debug_variable_getter = none := by
  intro argss
  induction argss with
  | nil =>
    intro st store st2 store2 h h1 h2 h3
    unfold ACF.callSeq at h
    cases h
    exact ⟨h3, h1, h2⟩
  | cons a rest ih =>
    intro st store st2 store2 h h1 h2 h3
    unfold ACF.callSeq at h
    rw [debug_call_eq st a store h1 h2 h3] at h
    simp only [debug_call_result] at h
    exact ih _ _ _ _ h h1 h2 h3

/-- C1 (amended): in `debug` mode, while no debug-variable source is
registered, no compiled artifact is ever produced: the cache stays empty
across any sequence of calls, every call re-propagates sample values,
writes each declared update's new sample value back onto its stateful
variable, fires no callbacks, and returns the outputs' sample values
directly — bare when the outputs object is a single tensor, as a list when
it is a tuple.  (If a debug-variable source is registered, the first call
compiles an artifact even in `debug` mode: see the counterexample.) -/
theorem debug_mode_never_compiles {V : Type} (st : ACF V) (args : List V)
    (store : Store V) (h1 : st.mode = Mode.debug)
    (h2 : st.debug_variable_getter = none) (h3 : st.compiled_fcn = none) :
    st.call args store = debug_call_result st args store ∧
    ∀ argss st2 store2, ACF.callSeq st store argss = Except.ok (st2, store2) →
      st2.compiled_fcn = none ∧ st2.mode = Mode.debug ∧
        st2.debug_variable_getter = none :=
  ⟨debug_call_eq st args store h1 h2 h3,
   fun argss st2 store2 h => debug_callSeq_inv argss st store st2 store2 h h1 h2 h3⟩

/-- C1 witness: a concrete run in `debug` mode with no debug source. -/
theorem debug_mode_never_compiles_witness :
    (ACF.init exFcn Mode.debug).call [5] exStore =
      debug_call_result (ACF.init exFcn Mode.debug) [5] exStore ∧
    ∀ argss st2 store2,
      ACF.callSeq (ACF.init exFcn Mode.debug) exStore argss = Except.ok (st2, store2) →
      st2.compiled_fcn = none ∧ st2.mode = Mode.debug ∧
        st2.debug_variable_getter = none :=
  debug_mode_never_compiles (ACF.init exFcn Mode.debug) [5] exStore rfl rfl rfl

/-- C1 counterexample: a callable constructed in `debug` mode whose
debug-variable source is registered does produce a compiled artifact on the
first call, refuting the claim as stated ("regardless of whether a
debug-variable source was registered"). -/
theorem debug_mode_compiles_with_debug_source :
    ((ACF.init exFcn Mode.debug).set_debug_variables exGetter = Except.ok exACFdbg) ∧
    ((exACFdbg.call [5] exStore).map
        (fun (r : Outs ℤ × List ℕ × ACF ℤ × Store ℤ) => r.2.2.1.compiled_fcn.isSome) =
      Except.ok true) := by
  constructor <;> rfl

theorem runCompiled_fired {V : Type} (st : ACF V) (c : Compiled V) (args : List V)
    (store : Store V) (res : Outs V) (fired : List ℕ) (st2 : ACF V) (store2 : Store V)
    (h : st.runCompiled c args store = Except.ok (res, fired, st2, store2)) :
    fired = st.callbacks := by
  simp only [ACF.runCompiled] at h
  split at h
  · split at h
    · split at h
      · split at h
        · cases h; rfl
        · cases h
      · cases h; rfl
    · cases h
  · cases h; rfl

theorem call_fired {V : Type} (st : ACF V) (args : List V) (store : Store V)
    (res : Outs V) (fired : List ℕ) (st2 : ACF V) (store2 : Store V)
    (h : st.call args store = Except.ok (res, fired, st2, store2)) :
    (st.compiled_fcn = none ∧ st.debug_variable_getter = none ∧
      st.mode = Mode.debug → fired = []) ∧
    (¬(st.compiled_fcn = none ∧ st.debug_variable_getter = none ∧
      st.mode = Mode.debug) → fired = st.callbacks) := by
  unfold ACF.call at h
  rcases hcf : st.compiled_fcn with _ | c0
  · simp only [hcf] at h
    rcases hg : st.debug_variable_getter with _ | g
    · simp only [hg] at h
      by_cases hm : st.mode = Mode.debug
      · simp only [hm, if_pos] at h
        cases h
        exact ⟨fun _ => rfl, fun hno => absurd ⟨rfl, rfl, hm⟩ hno⟩
      · rw [if_neg hm] at h
        have hf := runCompiled_fired _ _ _ _ _ _ _ _ h
        exact ⟨fun hcase => absurd hcase.2.2 hm, fun _ => hf⟩
    · simp only [hg] at h
      split at h
      · cases h
      · have hf := runCompiled_fired _ _ _ _ _ _ _ _ h
        refine ⟨fun hcase => ?_, fun _ => hf⟩
        have hx := hcase.2.1
        simp at hx
  · simp only [hcf] at h
    have hf := runCompiled_fired _ _ _ _ _ _ _ _ h
    refine ⟨fun hcase => ?_, fun _ => hf⟩
    have hx := hcase.1
    simp at hx

/-- C2 (amended): whenever a call returns through a compiled artifact —
that is, in every situation except the `debug`-mode path with no registered
debug-variable source — the registered post-call callbacks are all invoked,
in registration order, with no arguments, before the result is returned.
On the `debug`-mode uncompiled path the call returns early and no callback
is invoked (see the counterexample). -/
theorem callbacks_fire_in_order {V : Type} (st : ACF V) (args : List V)
    (store : Store V) (hok : (st.call args store).isOk = true) :
    (¬(st.compiled_fcn = none ∧ st.debug_variable_getter = none ∧
        st.mode = Mode.debug) →
      (st.call args store).map
        (fun (r : Outs V × List ℕ × ACF V × Store V) => r.2.1) =
        Except.ok st.callbacks) ∧
    ((st.compiled_fcn = none ∧ st.debug_variable_getter = none ∧
        st.mode = Mode.debug) →
      (st.call args store).map
        (fun (r : Outs V × List ℕ × ACF V × Store V) => r.2.1) =
        Except.ok []) := by
  rcases hcall : st.call args store with e | r
  · rw [hcall] at hok
    simp [Except.isOk, Except.toBool] at hok
  · obtain ⟨res, fired, st2, store2⟩ := r
    have hf := call_fired st args store res fired st2 store2 hcall
    constructor
    · intro hno
      simp only [Except.map]
      rw [hf.2 hno]
    · intro hcase
      simp only [Except.map]
      rw [hf.1 hcase]

/-- C2 witness: a concrete `run`-mode wrapper with one registered callback
fires it on the first call. -/
theorem callbacks_fire_in_order_witness :
    ((((ACF.init exFcn Mode.run).add_callback 3).call [5] exStore).isOk = true) ∧
    ((¬(((ACF.init exFcn Mode.run).add_callback 3).compiled_fcn = none ∧
        ((ACF.init exFcn Mode.run).add_callback 3).debug_variable_getter = none ∧
        ((ACF.init exFcn Mode.run).add_callback 3).mode = Mode.debug) →
      ((((ACF.init exFcn Mode.run).add_callback 3).call [5] exStore).map
        (fun (r : Outs ℤ × List ℕ × ACF ℤ × Store ℤ) => r.2.1) =
        Except.ok ((ACF.init exFcn Mode.run).add_callback 3).callbacks)) ∧
     ((((ACF.init exFcn Mode.run).add_callback 3).compiled_fcn = none ∧
        ((ACF.init exFcn Mode.run).add_callback 3).debug_variable_getter = none ∧
        ((ACF.init exFcn Mode.run).add_callback 3).mode = Mode.debug) →
      ((((ACF.init exFcn Mode.run).add_callback 3).call [5] exStore).map
        (fun (r : Outs ℤ × List ℕ × ACF ℤ × Store ℤ) => r.2.1) =
        Except.ok []))) :=
  ⟨rfl, callbacks_fire_in_order ((ACF.init exFcn Mode.run).add_callback 3) [5] exStore rfl⟩

/-- C2 counterexample: in `debug` mode with no debug source, a registered
callback is never invoked — the call returns before the callback loop. -/
theorem debug_mode_skips_callbacks :
    ((((ACF.init exFcn Mode.debug).add_callback 7).callbacks = [7])) ∧
    (((((ACF.init exFcn Mode.debug).add_callback 7).call [5] exStore).map
        (fun (r : Outs ℤ × List ℕ × ACF ℤ × Store ℤ) => r.2.1)) = Except.ok []) := by
  constructor <;> rfl

theorem get_debug_values_of_some {V : Type} (st : ACF V)
    (d : List (String × V)) (hd : st.debug_values = some d) :
    st.get_debug_values = Except.ok d := by
  unfold ACF.get_debug_values
  rw [hd]

/-- C3 (amended): `get_debug_values` raises a usage error exactly when no
debug snapshot has been recorded — when no debug-variable source was
registered, or when a source is registered but the callable has not yet
been invoked.  Once the callable has been invoked with a registered
(nonempty) source, a snapshot exists and `get_debug_values` returns it in
every compile mode, not only `omniscent` (see the counterexample); the
mode check of the source can only fire in an otherwise unreachable state. -/
theorem get_debug_values_spec {V : Type} (st : ACF V) (args : List V)
    (store : Store V) (g : List (String × (List V → Store V → V)))
    (hg : st.debug_variable_getter = some g) (hgne : g.isEmpty = false)
    (hc : st.compiled_fcn = none) (hd : st.debug_values = none) :
    (st.get_debug_values = Except.error
      "You need to run this function at least once before requesting debug values") ∧
    (∃ d, (st.call args store).map
        (fun (r : Outs V × List ℕ × ACF V × Store V) => r.2.2.1.get_debug_values) =
      Except.ok (Except.ok d)) ∧
    (∀ u : ACF V, u.debug_values = none → u.debug_variable_getter = none →
      u.get_debug_values = Except.error
        "You need to define debug variables before requesting debug values") := by
  refine ⟨?_, ?_, ?_⟩
  · unfold ACF.get_debug_values
    rw [hd]
    simp [hg, hc]
  · unfold ACF.call
    simp only [hc, hg, hgne]
    rw [if_neg (by simp [hgne])]
    unfold ACF.runCompiled
    simp only
    rcases hrv : (destructure st.fcn.kind (st.fcn.propagate args store)).1 with v | vs
    · simp only [hrv, Outs.toList]
      have htake : (([v] ++ g.map (fun kv => kv.2 args store)).take
          (([v] ++ g.map (fun kv => kv.2 args store)).length -
            (g.map Prod.fst).length)) = [v] := by
        simp
      simp only [htake]
      refine ⟨(g.map Prod.fst).zip (g.map (fun kv => kv.2 args store)), ?_⟩
      simp [Except.map, ACF.get_debug_values]
    · simp only [hrv, Outs.toList]
      refine ⟨(g.map Prod.fst).zip (g.map (fun kv => kv.2 args store)), ?_⟩
      simp [Except.map, ACF.get_debug_values]
  · intro u hud hug
    unfold ACF.get_debug_values
    rw [hud]
    simp [hug]

/-- C3 witness: a concrete `run`-mode wrapper with a registered source. -/
theorem get_debug_values_spec_witness :
    (exACFrun.get_debug_values = Except.error
      "You need to run this function at least once before requesting debug values") ∧
    (∃ d, (exACFrun.call [5] exStore).map
        (fun (r : Outs ℤ × List ℕ × ACF ℤ × Store ℤ) => r.2.2.1.get_debug_values) =
      Except.ok (Except.ok d)) ∧
    (∀ u : ACF ℤ, u.debug_values = none → u.debug_variable_getter = none →
      u.get_debug_values = Except.error
        "You need to define debug variables before requesting debug values") :=
  get_debug_values_spec exACFrun [5] exStore exGetter rfl rfl rfl rfl

/-- C3 counterexample: in `run` mode (not `omniscent`), after one call with
a registered debug source, `get_debug_values` returns the snapshot instead
of raising the mode usage error the claim states. -/
theorem get_debug_values_run_mode_cex :
    (exACFrun.mode ≠ Mode.omniscent) ∧
    ((exACFrun.call [5] exStore).map
        (fun (r : Outs ℤ × List ℕ × ACF ℤ × Store ℤ) => r.2.2.1.get_debug_values) =
      Except.ok (Except.ok [("x", 5)])) := by
  exact ⟨by decide, rfl⟩

/-- C4: the constructor of the structured standard-return value rejects
malformed outputs and updates, but the exception that escapes is an
attribute error (the format-error message interpolates the missing `_fcn`
attribute), not the dedicated contract-format error the claim states;
valid construction succeeds and the result iterates as
`(outputs, updates)`. -/
theorem SymbolicReturn_make_behaviour :
    (SymbolicReturn.make TupleArg.notTuple (ListArg.list []) =
      Except.error (PyErr.AttributeError "SymbolicReturn instance has no attribute _fcn")) ∧
    (SymbolicReturn.make (TupleArg.tup [PyObj.obj]) (ListArg.list []) =
      Except.error (PyErr.AttributeError "SymbolicReturn instance has no attribute _fcn")) ∧
    (SymbolicReturn.make (TupleArg.tup [PyObj.var false]) (ListArg.list [[PyObj.var true]]) =
      Except.error (PyErr.AttributeError "SymbolicReturn instance has no attribute _fcn")) ∧
    (SymbolicReturn.make (TupleArg.tup [PyObj.var false]) ListArg.notList =
      Except.error (PyErr.AttributeError "SymbolicReturn instance has no attribute _fcn")) ∧
    (∀ msg, SymbolicReturn.make (TupleArg.tup [PyObj.obj]) (ListArg.list []) ≠
      Except.error (PyErr.SymbolicFormatError msg)) ∧
    (SymbolicReturn.make (TupleArg.tup [PyObj.var false])
        (ListArg.list [[PyObj.var true, PyObj.var false]]) =
      Except.ok (SymbolicReturn.mk [PyObj.var false]
        [[PyObj.var true, PyObj.var false]])) ∧
    (SymbolicReturn.iter (SymbolicReturn.mk [PyObj.var false]
        [[PyObj.var true, PyObj.var false]]) =
      ([PyObj.var false], [[PyObj.var true, PyObj.var false]])) := by
  refine ⟨rfl, rfl, rfl, rfl, ?_, rfl, rfl⟩
  intro msg h
  simp [SymbolicReturn.make, PyObj.isVariable] at h

end Plato
